import Mathlib

/-!
Shallow embedding of the content-aggregation and generation pipeline of
src/pro_app.py (functions search_youtube_topic, get_video_views,
get_video_transcript, fetch_trending_videos, generate_summary,
ai_research_chat, and the fetch-button handler of the UI section).

External collaborators (the HTTP search endpoint, the statistics endpoint,
the transcript library and the LLM) are modelled as oracles: each possible
observable outcome of a call (a raised request exception, a parsed JSON
body with present or absent keys, a completion string or a raised error)
is a constructor of an outcome type, and the embedded functions are given
the outcome and reproduce exactly what the Python code does with it.
-/

namespace ProApp

/-- A Python exception that escapes one of the modelled fragments
uncaught.  The only such exception in the modelled code is the IndexError
raised by the subscript in get_video_views (src/pro_app.py line 157) when
the parsed body carries a present but empty items list. -/
inductive PyError where
  | indexError
deriving DecidableEq, Repr

/-- The statistics sub-dictionary of one element of the items list of the
videos endpoint body: its viewCount key may be present or absent
(absent means .get with default 0 yields 0 at line 157). -/
structure Statistics where
  viewCount : Option Nat
deriving DecidableEq, Repr

/-- One element of the items list of the videos endpoint body; the
statistics key may be present or absent. -/
structure StatsItem where
  statistics : Option Statistics
deriving DecidableEq, Repr

/-- Observable outcome of the HTTP GET of get_video_views
(src/pro_app.py lines 150-152): either requests raises (caught at line
153), or a JSON body is parsed, whose items key is present with a list of
entries, or absent. -/
inductive ViewsResponse where
  | reqError (msg : String)
  | json (items : Option (List StatsItem))
deriving DecidableEq, Repr

/-- Embedding of line 157 of src/pro_app.py applied to an items list that
is present in the body:
int(data.get(..)[0].get(..., dict()).get(..., 0)) subscripts the list at
index 0, so an empty list raises IndexError; otherwise absent keys
default to 0. -/
def viewsOfItems (items : List StatsItem) : Except PyError Nat :=
  match items with
  | [] => .error .indexError
  | it :: _ =>
    .ok (match it.statistics with
      | none => 0
      | some st => st.viewCount.getD 0)

/-- Embedding of get_video_views (src/pro_app.py lines 145-157).  A
request exception is caught and 0 returned (lines 153-155); otherwise the
body is read as in line 157, where an absent items key defaults to a
one-element list holding an empty dictionary. -/
def get_video_views (resp : ViewsResponse) : Except PyError Nat :=
  match resp with
  | .reqError _ => .ok 0
  | .json items => viewsOfItems (items.getD [{ statistics := none }])

/-- Observable outcome of YouTubeTranscriptApi.get_transcript
(src/pro_app.py line 162): a raised exception of any kind (the bare
except at line 164 catches them all), or a list of segment dictionaries,
modelled by the list of their text fields. -/
abbrev TranscriptFetch : Type := Except String (List String)

/-- Embedding of get_video_transcript (src/pro_app.py lines 159-165): on
success the text fields are joined with single spaces; every exception is
swallowed by the bare except and yields the sentinel string. -/
def get_video_transcript (fetch : TranscriptFetch) : String :=
  match fetch with
  | .ok transcript => String.intercalate " " transcript
  | .error _ => "Transcript not available."

/-- The snippet sub-dictionary of a search item: the title key is read by
direct subscript (line 137), the description key by .get with a default
(line 140), so only description is optional in the model. -/
structure Snippet where
  title : String
  description : Option String
deriving DecidableEq, Repr

/-- The id sub-dictionary of a search item: its videoId key may be absent
(line 132), in which case the item is dropped (line 133). -/
structure SearchId where
  videoId : Option String
deriving DecidableEq, Repr

/-- One element of the items list of the search endpoint body. -/
structure SearchItem where
  id : SearchId
  snippet : Snippet
deriving DecidableEq, Repr

/-- Observable outcome of the discovery call of search_youtube_topic
(src/pro_app.py lines 114-128): the module-level API key may be missing
(line 116), requests may raise (caught at line 126), or a body is parsed;
data.get at line 131 makes an absent items key behave exactly like an
empty list, so both are modelled by the json constructor with that
list. -/
inductive SearchOutcome where
  | noKey
  | reqError (msg : String)
  | json (items : List SearchItem)
deriving DecidableEq, Repr

/-- A video record as built at lines 136-141 of src/pro_app.py.  The
views and content keys are absent from the dictionary until the
enrichment loop adds them (lines 178 and 183), hence the Option fields
defaulting to none. -/
structure Video where
  title : String
  video_id : String
  video_url : String
  description : String
  views : Option Nat := none
  content : Option String := none
deriving DecidableEq, Repr

/-- Embedding of search_youtube_topic (src/pro_app.py lines 114-143):
empty list on missing key or request exception; otherwise each item with
a usable videoId becomes a Video record and the list is cut to 10. -/
def search_youtube_topic (outcome : SearchOutcome) : List Video :=
  match outcome with
  | .noKey => []
  | .reqError _ => []
  | .json items =>
    (items.filterMap (fun item =>
      match item.id.videoId with
      | none => none
      | some vid => some
          { title := item.snippet.title
            video_id := vid
            video_url := "https://www.youtube.com/watch?v=" ++ vid
            description := item.snippet.description.getD "No description available." })).take 10

/-- The collaborator oracles one aggregation run observes: the discovery
outcome, and for each video identifier the statistics body and the
transcript fetch outcome. -/
structure Env where
  search : SearchOutcome
  views : String → ViewsResponse
  transcript : String → TranscriptFetch

/-- Embedding of the Python slice s[:n]: the first n characters
(code points) of the string.  Defined structurally on the character list
so that it evaluates inside the kernel. -/
def pySlice (s : String) (n : Nat) : String := ⟨s.data.take n⟩

/-- Embedding of the Python method s.strip() with no argument: remove
leading and trailing whitespace characters.  Defined structurally on the
character list so that it evaluates inside the kernel. -/
def pyStrip (s : String) : String :=
  ⟨((s.data.dropWhile Char.isWhitespace).reverse.dropWhile Char.isWhitespace).reverse⟩

/-- The sort key of line 187 of src/pro_app.py: x.get with default 0, so
a video never enriched (no views key) counts as 0. -/
def viewKey (v : Video) : Nat := v.views.getD 0

/-- Stable descending insertion: the new element goes before the first
element whose key is less than or equal to its own.  Earlier elements
with an equal key stay in front, matching the stability guarantee of the
Python list sort used at line 187 with reverse=True. -/
def insertDesc (x : Video) : List Video → List Video
  | [] => [x]
  | y :: ys => if viewKey y ≤ viewKey x then x :: y :: ys else y :: insertDesc x ys

/-- Stable sort by descending view key, the behaviour of
videos.sort(key=lambda x: x.get(..., 0), reverse=True) at line 187. -/
def sortByViewsDesc : List Video → List Video
  | [] => []
  | x :: xs => insertDesc x (sortByViewsDesc xs)

/-- Embedding of one pass of the enrichment loop body (src/pro_app.py
lines 177-183) over one video: fetch the view count (which may raise, see
get_video_views), fetch the transcript, substitute the description when
the transcript equals the sentinel, and add the views and content keys to
the dictionary. -/
def enrichOne (env : Env) (video : Video) : Except PyError Video :=
  match get_video_views (env.views video.video_id) with
  | .error e => .error e
  | .ok vc =>
    .ok { video with
          views := some vc
          content := some (
            if get_video_transcript (env.transcript video.video_id) =
                "Transcript not available."
            then video.description
            else get_video_transcript (env.transcript video.video_id)) }

/-- The per-video block appended to all_content at line 184. -/
def itemBlock (v : Video) : String :=
  "### " ++ v.title ++ " (" ++ toString (viewKey v) ++ " views)\n" ++
    v.content.getD "" ++ "\n\n"

/-- Embedding of the whole enrichment loop (src/pro_app.py lines
175-185): processes the given videos in order, accumulating the enriched
records, the concatenated labeled blocks and the comma-separated title
string; an uncaught exception in a pass aborts the run. -/
def enrichLoop (env : Env) : List Video → Except PyError (List Video × String × String)
  | [] => .ok ([], "", "")
  | video :: rest =>
    match enrichOne env video with
    | .error e => .error e
    | .ok v =>
      match enrichLoop env rest with
      | .error e => .error e
      | .ok (vs, all_content, titles) =>
        .ok (v :: vs, itemBlock v ++ all_content, (v.title ++ ", ") ++ titles)

/-- Embedding of fetch_trending_videos (src/pro_app.py lines 167-188):
discover, exit early on the empty list, enrich the first five in
discovery order (the dictionaries are mutated in place, so the full list
holds the enriched first five followed by the untouched rest), sort the
full list by descending view key, and return the first five together
with all_content cut to 20000 characters and the title string. -/
def fetch_trending_videos (env : Env) : Except PyError (List Video × String × String) :=
  if (search_youtube_topic env.search).isEmpty then .ok ([], "", "")
  else
    match enrichLoop env ((search_youtube_topic env.search).take 5) with
    | .error e => .error e
    | .ok (enriched, all_content, titles) =>
      .ok ((sortByViewsDesc (enriched ++ (search_youtube_topic env.search).drop 5)).take 5,
           pySlice all_content 20000, titles)

/-- The pre-sort list of line 187 of src/pro_app.py: the enriched first
five in discovery order followed by the untouched remainder of the
discovered list.  Empty when the run aborted or discovery was empty. -/
def presortList (env : Env) : List Video :=
  match enrichLoop env ((search_youtube_topic env.search).take 5) with
  | .error _ => []
  | .ok (enriched, _, _) => enriched ++ (search_youtube_topic env.search).drop 5

/-- The full concatenation built by the enrichment loop before the
20000-character cut at line 188 of src/pro_app.py. -/
def raw_joined (env : Env) : String :=
  if (search_youtube_topic env.search).isEmpty then ""
  else
    match enrichLoop env ((search_youtube_topic env.search).take 5) with
    | .error _ => ""
    | .ok (_, all_content, _) => all_content

/-- The prompt built by generate_summary (src/pro_app.py lines 192-196):
title-only when all_content strips to nothing, content-based with the
titles and the full text otherwise. -/
def summary_prompt (all_content titles : String) : String :=
  if pyStrip all_content = "" then
    "Generate an engaging article using these video titles: " ++ titles ++ "."
  else
    "Write a high-quality summary for these videos: " ++ titles ++ ".\n\n" ++ all_content

/-- What generate_summary does with the completion outcome (src/pro_app.py
lines 198-204): an empty response string is replaced by the fixed failure
message, a raised error by the fixed retry message. -/
def respondOf : Except String String → String
  | .ok response => if response = "" then "⚠️ AI content generation failed." else response
  | .error _ => "⚠️ AI content generation failed. Please try again."

/-- Embedding of generate_summary (src/pro_app.py lines 190-204).  The
llm oracle maps the submitted prompt to the observable outcome of the
ChatGroq invocation: the completion content string, or a raised error. -/
def generate_summary (llm : String → Except String String)
    (all_content titles : String) : String :=
  match llm (summary_prompt all_content titles) with
  | .ok response => if response = "" then "⚠️ AI content generation failed." else response
  | .error _ => "⚠️ AI content generation failed. Please try again."

/-- The prompt built by ai_research_chat at line 210 of src/pro_app.py. -/
def chat_prompt (query : String) : String :=
  "Answer this question and suggest related questions: " ++ query

/-- Embedding of ai_research_chat (src/pro_app.py lines 206-214): the
completion content is returned as is (including an empty string), a
raised error is converted to a dynamic error message. -/
def ai_research_chat (llm : String → Except String String) (query : String) : String :=
  match llm (chat_prompt query) with
  | .ok response => response
  | .error e => "❌ ERROR: Failed to generate chatbot response - " ++ e

/-- Embedding of the fetch-button handler of the UI section
(src/pro_app.py lines 223-237): run the aggregation, and only when the
returned video list is non-empty invoke generate_summary on its text and
titles; the optional fourth component is the produced summary. -/
def on_fetch_click (env : Env) (llm : String → Except String String) :
    Except PyError (List Video × String × String × Option String) :=
  match fetch_trending_videos env with
  | .error e => .error e
  | .ok (trending_videos, all_content, titles) =>
    if trending_videos.isEmpty then .ok (trending_videos, all_content, titles, none)
    else .ok (trending_videos, all_content, titles,
              some (generate_summary llm all_content titles))

/-- First component of an aggregation outcome (empty on an uncaught
exception); used to state concrete runs without spelling out the other
components. -/
def itemsOf : Except PyError (List Video × String × String) → List Video
  | .error _ => []
  | .ok (items, _, _) => items

/-- Second component of an aggregation outcome. -/
def textOf : Except PyError (List Video × String × String) → String
  | .error _ => ""
  | .ok (_, text, _) => text

/-- Third component of an aggregation outcome. -/
def titlesOf : Except PyError (List Video × String × String) → String
  | .error _ => ""
  | .ok (_, _, titles) => titles

/-- Environment with the API key missing: discovery is short-circuited at
line 116 of src/pro_app.py. -/
def envNoKey : Env :=
  { search := .noKey
    views := fun _ => .json none
    transcript := fun _ => .error "no transcript" }

/-- Environment where discovery succeeds with one video but the
statistics body carries a present, empty items list, the response of the
videos endpoint for an unknown or deleted identifier. -/
def envCrash : Env :=
  { search := .json [{ id := { videoId := some "a" }
                       snippet := { title := "T", description := some "d" } }]
    views := fun _ => .json (some [])
    transcript := fun _ => .error "no transcript" }

/-- Environment of the ranking test: three videos discovered in the order
a, b, c with view counts 100, 500 and 10. -/
def envThree : Env :=
  { search := .json
      [ { id := { videoId := some "a" }
          snippet := { title := "A", description := some "da" } }
      , { id := { videoId := some "b" }
          snippet := { title := "B", description := some "db" } }
      , { id := { videoId := some "c" }
          snippet := { title := "C", description := some "dc" } } ]
    views := fun vid =>
      if vid = "a" then .json (some [{ statistics := some { viewCount := some 100 } }])
      else if vid = "b" then .json (some [{ statistics := some { viewCount := some 500 } }])
      else .json (some [{ statistics := some { viewCount := some 10 } }])
    transcript := fun _ => .error "no transcript" }

/-- Environment with six discovered videos, the first five with nonzero
view counts, exercising the cut after the sort of the full list. -/
def envSix : Env :=
  { search := .json
      [ { id := { videoId := some "a" }
          snippet := { title := "A", description := some "da" } }
      , { id := { videoId := some "b" }
          snippet := { title := "B", description := some "db" } }
      , { id := { videoId := some "c" }
          snippet := { title := "C", description := some "dc" } }
      , { id := { videoId := some "d" }
          snippet := { title := "D", description := some "dd" } }
      , { id := { videoId := some "e" }
          snippet := { title := "E", description := some "de" } }
      , { id := { videoId := some "f" }
          snippet := { title := "F", description := some "df" } } ]
    views := fun vid =>
      if vid = "a" then .json (some [{ statistics := some { viewCount := some 3 } }])
      else if vid = "b" then .json (some [{ statistics := some { viewCount := some 9 } }])
      else if vid = "c" then .json (some [{ statistics := some { viewCount := some 1 } }])
      else if vid = "d" then .json (some [{ statistics := some { viewCount := some 9 } }])
      else if vid = "e" then .json (some [{ statistics := some { viewCount := some 2 } }])
      else .json (some [{ statistics := some { viewCount := some 999 } }])
    transcript := fun _ => .error "no transcript" }

/-- Environment with one video whose transcript fetch raises, so the
description fallback applies. -/
def envOne : Env :=
  { search := .json [{ id := { videoId := some "a" }
                       snippet := { title := "T", description := some "d" } }]
    views := fun _ => .json (some [{ statistics := some { viewCount := some 7 } }])
    transcript := fun _ => .error "no transcript" }

/-- The enrichment of the single video of envOne. -/
def vOne : Video :=
  { title := "T"
    video_id := "a"
    video_url := "https://www.youtube.com/watch?v=a"
    description := "d"
    views := some 7
    content := some "d" }

/-- Environment with one video whose transcript fetch SUCCEEDS with
segments that join to exactly the unavailability sentinel. -/
def envSentinel : Env :=
  { search := .json [{ id := { videoId := some "a" }
                       snippet := { title := "T", description := some "d" } }]
    views := fun _ => .json none
    transcript := fun _ => .ok ["Transcript", "not", "available."] }

/-- The discovered (un-enriched) video of envSentinel. -/
def vSentinelIn : Video :=
  { title := "T"
    video_id := "a"
    video_url := "https://www.youtube.com/watch?v=a"
    description := "d" }

/-- The enrichment of the video of envSentinel: the joined transcript
collides with the sentinel, so the content falls back to the
description. -/
def vSentinelOut : Video :=
  { title := "T"
    video_id := "a"
    video_url := "https://www.youtube.com/watch?v=a"
    description := "d"
    views := some 0
    content := some "d" }

/-! ### Properties of the stable descending sort -/

/-- Inserting permutes: the result holds the new element and the old ones. -/
theorem insertDesc_perm (x : Video) (l : List Video) : (insertDesc x l).Perm (x :: l) := by
  induction l with
  | nil => simp [insertDesc]
  | cons y ys ih =>
    by_cases h : viewKey y ≤ viewKey x
    · simp [insertDesc, h]
    · simp only [insertDesc, if_neg h]
      exact (ih.cons y).trans (List.Perm.swap x y ys)

/-- The sort permutes its input, the behaviour of an in-place list sort. -/
theorem sortByViewsDesc_perm (l : List Video) : (sortByViewsDesc l).Perm l := by
  induction l with
  | nil => simp [sortByViewsDesc]
  | cons x xs ih => exact (insertDesc_perm x (sortByViewsDesc xs)).trans (ih.cons x)

/-- Inserting into a descending list keeps it descending. -/
theorem insertDesc_pairwise (x : Video) (l : List Video)
    (h : l.Pairwise (fun a b => viewKey b ≤ viewKey a)) :
    (insertDesc x l).Pairwise (fun a b => viewKey b ≤ viewKey a) := by
  induction l with
  | nil => simp [insertDesc]
  | cons y ys ih =>
    rcases List.pairwise_cons.mp h with ⟨hy, hys⟩
    by_cases hk : viewKey y ≤ viewKey x
    · simp only [insertDesc, if_pos hk]
      refine List.pairwise_cons.mpr ⟨?_, h⟩
      intro z hz
      rcases List.mem_cons.mp hz with rfl | hz2
      · exact hk
      · exact (hy z hz2).trans hk
    · simp only [insertDesc, if_neg hk]
      refine List.pairwise_cons.mpr ⟨?_, ih hys⟩
      intro z hz
      rcases List.mem_cons.mp ((insertDesc_perm x ys).mem_iff.mp hz) with rfl | hz2
      · exact Nat.le_of_not_le hk
      · exact hy z hz2

/-- The sorted list is descending in the view key. -/
theorem sortByViewsDesc_pairwise (l : List Video) :
    (sortByViewsDesc l).Pairwise (fun a b => viewKey b ≤ viewKey a) := by
  induction l with
  | nil => simp [sortByViewsDesc]
  | cons x xs ih => exact insertDesc_pairwise x (sortByViewsDesc xs) ih

/-- Filtering one view-key class through an insertion: the new element
lands in front of its class exactly when it belongs to it. -/
theorem filter_insertDesc (m : Nat) (x : Video) (l : List Video) :
    (insertDesc x l).filter (fun v => viewKey v == m) =
      if viewKey x = m then x :: l.filter (fun v => viewKey v == m)
      else l.filter (fun v => viewKey v == m) := by
  induction l with
  | nil => by_cases hx : viewKey x = m <;> simp [insertDesc, List.filter_cons, hx]
  | cons y ys ih =>
    by_cases hk : viewKey y ≤ viewKey x
    · simp only [insertDesc, if_pos hk, List.filter_cons]
      by_cases hx : viewKey x = m <;> simp [hx]
    · simp only [insertDesc, if_neg hk, List.filter_cons, ih]
      by_cases hy : viewKey y = m
      · have hx : viewKey x ≠ m := by
          intro hx
          exact hk (by omega)
        simp [hy, hx]
      · by_cases hx : viewKey x = m <;> simp [hy, hx]

/-- Stability of the sort: each view-key class of the output is the
corresponding class of the input, in the same order. -/
theorem filter_sortByViewsDesc (m : Nat) (l : List Video) :
    (sortByViewsDesc l).filter (fun v => viewKey v == m) =
      l.filter (fun v => viewKey v == m) := by
  induction l with
  | nil => simp [sortByViewsDesc]
  | cons x xs ih =>
    simp only [sortByViewsDesc, filter_insertDesc, ih, List.filter_cons]
    by_cases hx : viewKey x = m <;> simp [hx]

/-- An element whose key dominates the whole list is inserted in front. -/
theorem insertDesc_of_le (x : Video) (l : List Video)
    (h : ∀ y ∈ l, viewKey y ≤ viewKey x) : insertDesc x l = x :: l := by
  cases l with
  | nil => rfl
  | cons y ys => simp [insertDesc, h y (List.mem_cons_self y ys)]

/-- A list of all-zero keys is already descending-sorted: the stable sort
of the untouched tail of the discovered list leaves it untouched. -/
theorem sortByViewsDesc_of_zero (l : List Video) (h : ∀ b ∈ l, viewKey b = 0) :
    sortByViewsDesc l = l := by
  induction l with
  | nil => rfl
  | cons b bs ih =>
    rw [sortByViewsDesc, ih (fun y hy => h y (List.mem_cons_of_mem b hy))]
    refine insertDesc_of_le b bs (fun y hy => ?_)
    rw [h y (List.mem_cons_of_mem b hy), h b (List.mem_cons_self b bs)]

/-- Inserting an element that dominates a tail block never moves it past
the block. -/
theorem insertDesc_append (x : Video) (L B : List Video)
    (hB : ∀ b ∈ B, viewKey b ≤ viewKey x) :
    insertDesc x (L ++ B) = insertDesc x L ++ B := by
  induction L with
  | nil =>
    cases B with
    | nil => rfl
    | cons b bs => simp [insertDesc, hB b (List.mem_cons_self b bs)]
  | cons y L ih =>
    by_cases hk : viewKey y ≤ viewKey x <;> simp [insertDesc, hk, ih]

/-- Sorting a list followed by an all-zero-key block sorts the front and
leaves the block at the bottom: the stable sort never lets an unenriched
video (key 0) climb past any enriched one. -/
theorem sortByViewsDesc_append_zero (A B : List Video) (hB : ∀ b ∈ B, viewKey b = 0) :
    sortByViewsDesc (A ++ B) = sortByViewsDesc A ++ B := by
  induction A with
  | nil => simpa using sortByViewsDesc_of_zero B hB
  | cons a A ih =>
    show insertDesc a (sortByViewsDesc (A ++ B)) = insertDesc a (sortByViewsDesc A) ++ B
    rw [ih]
    exact insertDesc_append a (sortByViewsDesc A) B
      (fun b hb => by rw [hB b hb]; exact Nat.zero_le _)

/-! ### Plumbing facts about discovery, enrichment and aggregation -/

/-- A discovered video has neither a views key nor a content key yet. -/
theorem search_views_none (o : SearchOutcome) (v : Video)
    (hv : v ∈ search_youtube_topic o) : v.views = none ∧ v.content = none := by
  cases o with
  | noKey => simp [search_youtube_topic] at hv
  | reqError m => simp [search_youtube_topic] at hv
  | json items =>
    simp only [search_youtube_topic] at hv
    rcases List.mem_filterMap.mp (List.mem_of_mem_take hv) with ⟨item, _, heq⟩
    cases hvid : item.id.videoId with
    | none => rw [hvid] at heq; simp at heq
    | some vid =>
      rw [hvid] at heq
      simp only [Option.some.injEq] at heq
      rw [← heq]
      exact ⟨rfl, rfl⟩

/-- Successful enrichment of one video: the view fetch returned a count
and the record is the input with the views and content keys added. -/
theorem enrichOne_ok (env : Env) (v v' : Video) (h : enrichOne env v = .ok v') :
    ∃ n, get_video_views (env.views v.video_id) = .ok n ∧
      v' = { v with
             views := some n
             content := some (
               if get_video_transcript (env.transcript v.video_id) =
                   "Transcript not available."
               then v.description
               else get_video_transcript (env.transcript v.video_id)) } := by
  unfold enrichOne at h
  cases hv : get_video_views (env.views v.video_id) with
  | error e => rw [hv] at h; simp at h
  | ok n =>
    rw [hv] at h
    simp only [Except.ok.injEq] at h
    exact ⟨n, rfl, h.symm⟩

/-- A successful enrichment loop yields one output per input, and every
output is the successful enrichment of some input. -/
theorem enrichLoop_ok (env : Env) (l : List Video) :
    ∀ (out : List Video) (c t : String), enrichLoop env l = .ok (out, c, t) →
      out.length = l.length ∧ ∀ v ∈ out, ∃ v₀ ∈ l, enrichOne env v₀ = .ok v := by
  induction l with
  | nil =>
    intro out c t h
    simp only [enrichLoop, Except.ok.injEq, Prod.mk.injEq] at h
    rw [← h.1]
    exact ⟨rfl, by simp⟩
  | cons video rest ih =>
    intro out c t h
    simp only [enrichLoop] at h
    cases he : enrichOne env video with
    | error e => rw [he] at h; simp at h
    | ok v =>
      rw [he] at h
      cases hr : enrichLoop env rest with
      | error e => rw [hr] at h; simp at h
      | ok tri =>
        obtain ⟨vs, ac, ti⟩ := tri
        rw [hr] at h
        simp only [Except.ok.injEq, Prod.mk.injEq] at h
        obtain ⟨ho, -, -⟩ := h
        rcases ih vs ac ti hr with ⟨hlen, hmem⟩
        rw [← ho]
        constructor
        · simp [hlen]
        · intro w hw
          rcases List.mem_cons.mp hw with rfl | hw2
          · exact ⟨video, List.mem_cons_self video rest, he⟩
          · rcases hmem w hw2 with ⟨v₀, hv₀, hv₀e⟩
            exact ⟨v₀, List.mem_cons_of_mem video hv₀, hv₀e⟩

/-- Inversion of a successful aggregation run: either discovery was empty
and everything returned is empty, or the loop succeeded and the returned
components are the sorted-and-cut item list and the cut text. -/
theorem fetch_shape (env : Env) (items : List Video) (text titles : String)
    (h : fetch_trending_videos env = .ok (items, text, titles)) :
    (search_youtube_topic env.search = [] ∧ items = [] ∧ text = "" ∧ titles = "") ∨
    (¬ (search_youtube_topic env.search).isEmpty ∧ ∃ enriched raw,
      enrichLoop env ((search_youtube_topic env.search).take 5) = .ok (enriched, raw, titles) ∧
      items = (sortByViewsDesc
        (enriched ++ (search_youtube_topic env.search).drop 5)).take 5 ∧
      text = pySlice raw 20000) := by
  unfold fetch_trending_videos at h
  by_cases hs : (search_youtube_topic env.search).isEmpty
  · rw [if_pos hs] at h
    simp only [Except.ok.injEq, Prod.mk.injEq] at h
    exact .inl ⟨List.isEmpty_iff.mp hs, h.1.symm, h.2.1.symm, h.2.2.symm⟩
  · rw [if_neg hs] at h
    cases he : enrichLoop env ((search_youtube_topic env.search).take 5) with
    | error e => rw [he] at h; simp at h
    | ok tri =>
      obtain ⟨enriched, raw, ti⟩ := tri
      rw [he] at h
      simp only [Except.ok.injEq, Prod.mk.injEq] at h
      refine .inr ⟨hs, enriched, raw, ?_, h.1.symm, h.2.1.symm⟩
      rw [← h.2.2]

/-- The pre-sort list of a successful non-empty run. -/
theorem presortList_eq (env : Env) (enriched : List Video) (raw titles : String)
    (he : enrichLoop env ((search_youtube_topic env.search).take 5) =
      .ok (enriched, raw, titles)) :
    presortList env = enriched ++ (search_youtube_topic env.search).drop 5 := by
  unfold presortList
  rw [he]

/-- The raw concatenation of a successful non-empty run. -/
theorem raw_joined_eq (env : Env) (enriched : List Video) (raw titles : String)
    (hs : ¬ (search_youtube_topic env.search).isEmpty)
    (he : enrichLoop env ((search_youtube_topic env.search).take 5) =
      .ok (enriched, raw, titles)) :
    raw_joined env = raw := by
  unfold raw_joined
  rw [if_neg hs, he]

/-- The slice bound: the cut text never exceeds the budget. -/
theorem length_pySlice_le (s : String) (n : Nat) : (pySlice s n).length ≤ n := by
  show (s.data.take n).length ≤ n
  simp

/-! ### Claim theorems -/

/-- C1: the claim states that the view-count fetch defaults to 0 on any
fetch failure or on an absent statistics response and never raises.  The
code keeps that promise for a raised request exception, for an absent
items key, and for absent statistics or viewCount keys — but the
subscript at line 157 of src/pro_app.py raises an uncaught IndexError
when the parsed body carries a PRESENT, EMPTY items list, the response
of the videos endpoint for an unknown or deleted identifier.  So the
fetch is not total: the code contradicts the never-fatal intent. -/
theorem C1_view_fetch_not_total :
    get_video_views (.json (some [])) = .error .indexError ∧
    get_video_views (.reqError "timeout") = .ok 0 ∧
    get_video_views (.json none) = .ok 0 ∧
    get_video_views (.json (some [{ statistics := none }])) = .ok 0 ∧
    get_video_views (.json (some [{ statistics := some { viewCount := none } }])) = .ok 0 :=
  ⟨rfl, rfl, rfl, rfl, rfl⟩

/-- C2 counterexample: the claim states that an empty completion
response is converted to a failure message by both generators, but
ai_research_chat (src/pro_app.py line 212) returns the completion
content verbatim, so an empty completion yields the empty string — not
a non-empty failure message. -/
theorem C2_empty_completion_counterexample :
    ai_research_chat (fun _ => Except.ok "") "What is Lean?" = "" := rfl

/-- C2 as amended: when the completion call raises, both generate_summary
and ai_research_chat return fixed or error-describing non-empty failure
strings and never propagate the failure; an empty completion response is
converted to a non-empty failure message by generate_summary, while
ai_research_chat returns the empty response verbatim. -/
theorem C2_generation_failure_messages (llm : String → Except String String)
    (all_content titles query e : String) :
    (llm (summary_prompt all_content titles) = .error e →
      generate_summary llm all_content titles =
        "⚠️ AI content generation failed. Please try again." ∧
      generate_summary llm all_content titles ≠ "") ∧
    (llm (summary_prompt all_content titles) = .ok "" →
      generate_summary llm all_content titles = "⚠️ AI content generation failed." ∧
      generate_summary llm all_content titles ≠ "") ∧
    (llm (chat_prompt query) = .error e →
      ai_research_chat llm query =
        "❌ ERROR: Failed to generate chatbot response - " ++ e ∧
      ai_research_chat llm query ≠ "") ∧
    (llm (chat_prompt query) = .ok "" → ai_research_chat llm query = "") := by
  refine ⟨fun hc => ?_, fun hc => ?_, fun hc => ?_, fun hc => ?_⟩
  · have heq : generate_summary llm all_content titles =
        "⚠️ AI content generation failed. Please try again." := by
      unfold generate_summary
      rw [hc]
    refine ⟨heq, ?_⟩
    rw [heq]
    decide
  · have heq : generate_summary llm all_content titles =
        "⚠️ AI content generation failed." := by
      unfold generate_summary
      rw [hc]
      rfl
    refine ⟨heq, ?_⟩
    rw [heq]
    decide
  · have heq : ai_research_chat llm query =
        "❌ ERROR: Failed to generate chatbot response - " ++ e := by
      unfold ai_research_chat
      rw [hc]
    refine ⟨heq, fun habs => ?_⟩
    rw [heq] at habs
    have hlen := congrArg String.length habs
    rw [String.length_append] at hlen
    have hpos : 0 < ("❌ ERROR: Failed to generate chatbot response - ").length := by decide
    have h0 : ("" : String).length = 0 := rfl
    rw [h0] at hlen
    omega
  · unfold ai_research_chat
    rw [hc]

/-- C2 witness: the hypotheses of the amended claim hold at concrete
completion outcomes. -/
theorem C2_generation_failure_messages_witness :
    (generate_summary (fun _ => .error "boom") "" "T, " =
        "⚠️ AI content generation failed. Please try again." ∧
      generate_summary (fun _ => .error "boom") "" "T, " ≠ "") ∧
    (generate_summary (fun _ => .ok "") "" "T, " =
        "⚠️ AI content generation failed." ∧
      generate_summary (fun _ => .ok "") "" "T, " ≠ "") ∧
    (ai_research_chat (fun _ => .error "boom") "q" =
        "❌ ERROR: Failed to generate chatbot response - " ++ "boom" ∧
      ai_research_chat (fun _ => .error "boom") "q" ≠ "") ∧
    ai_research_chat (fun _ => .ok "") "q" = "" :=
  ⟨(C2_generation_failure_messages (fun _ => .error "boom") "" "T, " "q" "boom").1 rfl,
   (C2_generation_failure_messages (fun _ => .ok "") "" "T, " "q" "boom").2.1 rfl,
   (C2_generation_failure_messages (fun _ => .error "boom") "" "T, " "q" "boom").2.2.1 rfl,
   (C2_generation_failure_messages (fun _ => .ok "") "" "T, " "q" "boom").2.2.2 rfl⟩

/-- C5: if discovery yields zero candidates, the aggregation returns the
empty items, empty joined text and empty title list as a normal (.ok)
outcome, and the button handler produces no summary.  The statistics
oracle, transcript oracle and completion oracle of the run are
universally quantified and the result is a constant, so no collaborator
call can influence (or be needed for) the outcome. -/
theorem C5_zero_results_empty (env : Env) (llm : String → Except String String)
    (h : search_youtube_topic env.search = []) :
    fetch_trending_videos env = .ok ([], "", "") ∧
    on_fetch_click env llm = .ok ([], "", "", none) := by
  have h1 : fetch_trending_videos env = .ok ([], "", "") := by
    unfold fetch_trending_videos
    rw [h]
    rfl
  refine ⟨h1, ?_⟩
  unfold on_fetch_click
  rw [h1]
  rfl

/-- C5 witness: the missing-credential environment discovers nothing. -/
theorem C5_zero_results_empty_witness :
    fetch_trending_videos envNoKey = .ok ([], "", "") ∧
    on_fetch_click envNoKey (fun _ => .ok "a summary") = .ok ([], "", "", none) :=
  C5_zero_results_empty envNoKey (fun _ => .ok "a summary") rfl

/-- C7: the claim states that a missing or unusable credential
short-circuits discovery into the empty result without raising, and that
this is the ONLY propagated failure mode of the aggregator.  The first
part holds (first two conjuncts).  The second part does not: with a
perfectly valid credential and a successful discovery, the view-count
fetch of enrichment raises an uncaught IndexError (see C1) which
propagates out of fetch_trending_videos (third conjunct), a second
propagated failure mode that contradicts the only-failure-mode intent of
the specification. -/
theorem C7_credential_shortcircuit_not_only_failure :
    search_youtube_topic SearchOutcome.noKey = [] ∧
    fetch_trending_videos envNoKey = .ok ([], "", "") ∧
    fetch_trending_videos envCrash = .error .indexError :=
  ⟨rfl, rfl, rfl⟩

/-- C8: generate_summary builds a title-only instruction when the joined
text strips to nothing, and otherwise a content-based instruction that
embeds both the title list and the full joined text, and submits exactly
that instruction to the completion collaborator. -/
theorem C8_prompt_selection (llm : String → Except String String)
    (all_content titles : String) :
    (pyStrip all_content = "" →
      summary_prompt all_content titles =
        "Generate an engaging article using these video titles: " ++ titles ++ ".") ∧
    (pyStrip all_content ≠ "" →
      summary_prompt all_content titles =
        "Write a high-quality summary for these videos: " ++ titles ++ ".\n\n"
          ++ all_content) ∧
    generate_summary llm all_content titles =
      respondOf (llm (summary_prompt all_content titles)) := by
  refine ⟨fun h => ?_, fun h => ?_, ?_⟩
  · unfold summary_prompt
    rw [if_pos h]
  · unfold summary_prompt
    rw [if_neg h]
  · unfold generate_summary respondOf
    cases llm (summary_prompt all_content titles) <;> rfl

/-- C8 witness: one whitespace-only joined text and one substantive
joined text select the two instruction forms. -/
theorem C8_prompt_selection_witness :
    summary_prompt " \n " "T, " =
      "Generate an engaging article using these video titles: " ++ "T, " ++ "." ∧
    summary_prompt " body " "T, " =
      "Write a high-quality summary for these videos: " ++ "T, " ++ ".\n\n"
        ++ " body " :=
  ⟨(C8_prompt_selection (fun _ => .ok "x") " \n " "T, ").1 (by decide),
   (C8_prompt_selection (fun _ => .ok "x") " body " "T, ").2.1 (by decide)⟩

/-- C3: the item list of every successful aggregation is sorted by view
key descending, and the sort is stable: every view-key class of the
returned list appears in the order of the pre-sort list (the enriched
first five in discovery order followed by the untouched rest).  In
particular, three videos discovered with view counts 100, 500 and 10 are
returned ranked 500, 100, 10. -/
theorem C3_ranking_sorted_and_stable (env : Env) (items : List Video)
    (text titles : String)
    (h : fetch_trending_videos env = .ok (items, text, titles)) :
    (items.Pairwise (fun a b => viewKey b ≤ viewKey a) ∧
      ∀ m : Nat, (items.filter (fun v => viewKey v == m)).Sublist
        ((presortList env).filter (fun v => viewKey v == m))) ∧
    (itemsOf (fetch_trending_videos envThree)).map viewKey = [500, 100, 10] := by
  refine ⟨?_, by decide⟩
  rcases fetch_shape env items text titles h with
    ⟨-, hitems, -, -⟩ | ⟨-, enriched, raw, he, hitems, -⟩
  · subst hitems
    exact ⟨List.Pairwise.nil, fun m => by simp⟩
  · subst hitems
    rw [presortList_eq env enriched raw titles he]
    constructor
    · exact List.Pairwise.sublist (List.take_sublist 5 _) (sortByViewsDesc_pairwise _)
    · intro m
      have hsub : ((sortByViewsDesc
            (enriched ++ (search_youtube_topic env.search).drop 5)).take 5).filter
              (fun v => viewKey v == m) |>.Sublist
          ((sortByViewsDesc
            (enriched ++ (search_youtube_topic env.search).drop 5)).filter
              (fun v => viewKey v == m)) :=
        (List.take_sublist 5 _).filter _
      rw [filter_sortByViewsDesc] at hsub
      exact hsub

/-- C3 witness: the three-video environment instantiates the sorted and
stable conclusions. -/
theorem C3_ranking_sorted_and_stable_witness :
    (itemsOf (fetch_trending_videos envThree)).Pairwise
      (fun a b => viewKey b ≤ viewKey a) ∧
    ∀ m : Nat,
      ((itemsOf (fetch_trending_videos envThree)).filter
        (fun v => viewKey v == m)).Sublist
      ((presortList envThree).filter (fun v => viewKey v == m)) :=
  (C3_ranking_sorted_and_stable envThree (itemsOf (fetch_trending_videos envThree))
    (textOf (fetch_trending_videos envThree))
    (titlesOf (fetch_trending_videos envThree)) rfl).1

/-- C4: the joined text of every successful aggregation is at most 20000
characters long, and is exactly the first 20000 characters of the full
concatenation built by the enrichment loop (so a longer concatenation is
cut mid-item at the budget). -/
theorem C4_joined_text_bounded (env : Env) (items : List Video)
    (text titles : String)
    (h : fetch_trending_videos env = .ok (items, text, titles)) :
    text.length ≤ 20000 ∧ text = pySlice (raw_joined env) 20000 := by
  rcases fetch_shape env items text titles h with
    ⟨hs, -, htext, -⟩ | ⟨hs, enriched, raw, he, -, htext⟩
  · subst htext
    have hre : raw_joined env = "" := by
      unfold raw_joined
      rw [if_pos (List.isEmpty_iff.mpr hs)]
    rw [hre]
    exact ⟨by decide, rfl⟩
  · subst htext
    rw [raw_joined_eq env enriched raw titles hs he]
    exact ⟨length_pySlice_le raw 20000, rfl⟩

/-- C4 witness: the single-video environment instantiates the length
bound and the cut equation. -/
theorem C4_joined_text_bounded_witness :
    (textOf (fetch_trending_videos envOne)).length ≤ 20000 ∧
    textOf (fetch_trending_videos envOne) = pySlice (raw_joined envOne) 20000 :=
  C4_joined_text_bounded envOne (itemsOf (fetch_trending_videos envOne))
    (textOf (fetch_trending_videos envOne))
    (titlesOf (fetch_trending_videos envOne)) rfl

/-- C6: every enriched candidate of a successful aggregation whose
transcript fetch signalled unavailability (raised, was caught by the
bare except, and so yielded the sentinel) carries its description as its
content. -/
theorem C6_description_fallback (env : Env) (items : List Video)
    (text titles : String) (v : Video) (n : Nat) (e : String)
    (h : fetch_trending_videos env = .ok (items, text, titles))
    (hv : v ∈ items) (hn : v.views = some n)
    (ht : env.transcript v.video_id = .error e) :
    v.content = some v.description := by
  rcases fetch_shape env items text titles h with
    ⟨-, hitems, -, -⟩ | ⟨-, enriched, raw, he, hitems, -⟩
  · subst hitems
    simp at hv
  · subst hitems
    have hfull : v ∈ enriched ++ (search_youtube_topic env.search).drop 5 :=
      (sortByViewsDesc_perm _).mem_iff.mp (List.mem_of_mem_take hv)
    rcases List.mem_append.mp hfull with henr | hdrop
    · rcases (enrichLoop_ok env _ enriched raw titles he).2 v henr with ⟨v₀, -, hv₀⟩
      rcases enrichOne_ok env v₀ v hv₀ with ⟨m, -, hrec⟩
      subst hrec
      have hid : env.transcript v₀.video_id = .error e := ht
      rw [hid]
      have : get_video_transcript (Except.error e) = "Transcript not available." := rfl
      rw [this, if_pos rfl]
    · have := (search_views_none env.search v (List.mem_of_mem_drop hdrop)).1
      rw [this] at hn
      exact absurd hn (by simp)

/-- C6 witness: the single-video environment with a raising transcript
fetch instantiates the fallback. -/
theorem C6_description_fallback_witness : vOne.content = some vOne.description :=
  C6_description_fallback envOne (itemsOf (fetch_trending_videos envOne))
    (textOf (fetch_trending_videos envOne))
    (titlesOf (fetch_trending_videos envOne)) vOne 7 "no transcript"
    rfl (by decide) rfl rfl

/-- C9: when discovery yields more than five candidates, the item list of
a successful aggregation is exactly the five enriched candidates, merely
reordered (a permutation, equal to their stable descending sort): the
unenriched candidates past the fifth all carry sort key 0, the sort is
stable, so cutting the sorted full list at five never lets an unenriched
candidate displace an enriched one. -/
theorem C9_cut_keeps_enriched_five (env : Env) (items : List Video)
    (text titles : String)
    (h : fetch_trending_videos env = .ok (items, text, titles))
    (hlen : 5 < (search_youtube_topic env.search).length) :
    ∃ enriched raw,
      enrichLoop env ((search_youtube_topic env.search).take 5) =
        .ok (enriched, raw, titles) ∧
      items = sortByViewsDesc enriched ∧ items.Perm enriched := by
  rcases fetch_shape env items text titles h with
    ⟨hs, -, -, -⟩ | ⟨-, enriched, raw, he, hitems, -⟩
  · rw [hs] at hlen
    simp at hlen
  · have hzero : ∀ b ∈ (search_youtube_topic env.search).drop 5, viewKey b = 0 := by
      intro b hb
      have := (search_views_none env.search b (List.mem_of_mem_drop hb)).1
      simp [viewKey, this]
    have hlen5 : enriched.length = 5 := by
      have := (enrichLoop_ok env _ enriched raw titles he).1
      rw [this, List.length_take]
      omega
    have hslen : (sortByViewsDesc enriched).length = 5 :=
      (sortByViewsDesc_perm enriched).length_eq.trans hlen5
    have heq : items = sortByViewsDesc enriched := by
      rw [hitems, sortByViewsDesc_append_zero enriched _ hzero,
        List.take_left' hslen]
    refine ⟨enriched, raw, he, heq, ?_⟩
    rw [heq]
    exact sortByViewsDesc_perm enriched

/-- C9 witness: the six-video environment instantiates the cut. -/
theorem C9_cut_keeps_enriched_five_witness :
    ∃ enriched raw,
      enrichLoop envSix ((search_youtube_topic envSix.search).take 5) =
        .ok (enriched, raw, titlesOf (fetch_trending_videos envSix)) ∧
      itemsOf (fetch_trending_videos envSix) = sortByViewsDesc enriched ∧
      (itemsOf (fetch_trending_videos envSix)).Perm enriched :=
  C9_cut_keeps_enriched_five envSix (itemsOf (fetch_trending_videos envSix))
    (textOf (fetch_trending_videos envSix))
    (titlesOf (fetch_trending_videos envSix)) rfl (by decide)

/-- C10: the transcript fetch is total by construction: every raised
exception (first conjunct) and every successful segment list (second
conjunct) is mapped to a string, never re-raised.  Unavailability is
signalled by the sentinel string, so a SUCCESSFULLY fetched transcript
whose segments join to exactly that sentinel (third conjunct) is
indistinguishable from unavailability and also triggers the description
fallback during enrichment (fourth conjunct). -/
theorem C10_sentinel_collision (env : Env) (v v' : Video) (e : String)
    (segs : List String) :
    get_video_transcript (.error e) = "Transcript not available." ∧
    get_video_transcript (.ok segs) = String.intercalate " " segs ∧
    get_video_transcript (.ok ["Transcript", "not", "available."]) =
      "Transcript not available." ∧
    (env.transcript v.video_id = .ok ["Transcript", "not", "available."] →
      enrichOne env v = .ok v' → v'.content = some v.description) := by
  refine ⟨rfl, rfl, by decide, fun ht hone => ?_⟩
  rcases enrichOne_ok env v v' hone with ⟨m, -, hrec⟩
  subst hrec
  rw [ht]
  have hsen : get_video_transcript
      (Except.ok ["Transcript", "not", "available."]) =
      "Transcript not available." := by decide
  rw [hsen, if_pos rfl]

/-- C10 witness: the sentinel-collision environment instantiates both the
swallowing of a raised fetch and the fallback on a successful fetch that
joins to the sentinel. -/
theorem C10_sentinel_collision_witness :
    get_video_transcript (.error "boom") = "Transcript not available." ∧
    vSentinelOut.content = some vSentinelIn.description :=
  ⟨(C10_sentinel_collision envSentinel vSentinelIn vSentinelOut "boom" []).1,
   (C10_sentinel_collision envSentinel vSentinelIn vSentinelOut "boom" []).2.2.2
     rfl rfl⟩

end ProApp
